import Mathlib

/-!
Formal model of the spectra-studio database gateway
(source: src/src-tauri/src/lib.rs).

The gateway is modelled shallowly: each Tauri command becomes a Lean
function over an explicit registry state and explicit oracles for the
driver/network calls it makes.  Pure computations (SQL text generation,
statement classification, value marshalling, reply formatting, whitespace
splitting, UTF-8 handling) are translated directly from the Rust source.
Driver behaviour that lives outside the repository (sqlx, redis, russh,
mongodb) is abstracted as function parameters ("oracles") so that claims
about control flow, guards and error propagation can be stated without
modelling the wire protocols themselves.  A Rust `panic!`/`unwrap`
abort is modelled as an `Except.error` whose message starts with
"panic: ", to distinguish it from an ordinary returned error.
-/

deriving instance DecidableEq for Except

/-! ### String helpers (kernel-evaluable translations of the Rust string API) -/

/-- Rust `str::to_uppercase`, restricted to the ASCII case mapping that the
statement-classification keywords rely on. -/
def strToUpper (s : String) : String := String.mk (s.data.map Char.toUpper)

/-- Rust `str::trim`: drop leading and trailing whitespace. -/
def strTrim (s : String) : String :=
  String.mk (((s.data.dropWhile Char.isWhitespace).reverse.dropWhile Char.isWhitespace).reverse)

/-- Rust `str::starts_with` for string patterns. -/
def strStartsWith (s pre : String) : Bool := pre.data.isPrefixOf s.data

/-- Helper for `splitWhitespace`: split a character list into maximal
non-whitespace chunks (`acc` holds the current chunk, reversed). -/
def wsChunks : List Char → List Char → List (List Char)
  | acc, [] => if acc = [] then [] else [acc.reverse]
  | acc, c :: cs =>
    if c.isWhitespace then
      (if acc = [] then [] else [acc.reverse]) ++ wsChunks [] cs
    else wsChunks (c :: acc) cs

/-- Rust `str::split_whitespace().collect()`: whitespace-separated parts,
empty parts skipped. -/
def splitWhitespace (s : String) : List String := (wsChunks [] s.data).map String.mk

/-! ### UTF-8 handling

`String::from_utf8` (strict) and `String::from_utf8_lossy` over byte lists.
Only two facts about these functions are used by the theorems below:
strict decoding fails exactly on invalid UTF-8, and lossy decoding is
total.  The decoder below implements the standard RFC 3629 byte ranges. -/

/-- A UTF-8 continuation byte (10xxxxxx). -/
def isUtf8Cont (b : Nat) : Bool := 128 ≤ b && b < 192

/-- UTF-8 validity checker.  The first argument is the list of admissible
ranges for the continuation bytes still expected for the current scalar. -/
def validUtf8From : List (Nat × Nat) → List Nat → Bool
  | [], [] => true
  | _ :: _, [] => false
  | (lo, hi) :: ps, b :: r => (lo ≤ b && b < hi) && validUtf8From ps r
  | [], b :: r =>
    if b < 128 then validUtf8From [] r
    else if 194 ≤ b && b ≤ 223 then validUtf8From [(128, 192)] r
    else if b = 224 then validUtf8From [(160, 192), (128, 192)] r
    else if 225 ≤ b && b ≤ 236 then validUtf8From [(128, 192), (128, 192)] r
    else if b = 237 then validUtf8From [(128, 160), (128, 192)] r
    else if 238 ≤ b && b ≤ 239 then validUtf8From [(128, 192), (128, 192)] r
    else if b = 240 then validUtf8From [(144, 192), (128, 192), (128, 192)] r
    else if 241 ≤ b && b ≤ 243 then validUtf8From [(128, 192), (128, 192), (128, 192)] r
    else if b = 244 then validUtf8From [(128, 144), (128, 192), (128, 192)] r
    else false

/-- Strict UTF-8 validity of a whole byte list. -/
def validUtf8 (l : List Nat) : Bool := validUtf8From [] l

/-- The Unicode replacement character U+FFFD used by lossy decoding. -/
def utf8Repl : Char := Char.ofNat 0xFFFD

/-- Range check for the two continuation bytes of a three-byte scalar. -/
def utf8Valid3 (b b2 b3 : Nat) : Bool :=
  (if b = 224 then 160 ≤ b2 && b2 < 192
   else if b = 237 then 128 ≤ b2 && b2 < 160
   else isUtf8Cont b2) && isUtf8Cont b3

/-- Range check for the three continuation bytes of a four-byte scalar. -/
def utf8Valid4 (b b2 b3 b4 : Nat) : Bool :=
  (if b = 240 then 144 ≤ b2 && b2 < 192
   else if b = 244 then 128 ≤ b2 && b2 < 144
   else isUtf8Cont b2) && isUtf8Cont b3 && isUtf8Cont b4

/-- Lossy UTF-8 decoding (`String::from_utf8_lossy`), fuel-indexed by the
length of the byte list (each step consumes at least one byte). -/
def utf8LossyAux : Nat → List Nat → List Char
  | _, [] => []
  | 0, _ => []
  | fuel + 1, b :: r =>
    if b < 128 then Char.ofNat b :: utf8LossyAux fuel r
    else if 194 ≤ b && b ≤ 223 then
      match r with
      | b2 :: r2 =>
        if isUtf8Cont b2 then
          Char.ofNat ((b - 192) * 64 + (b2 - 128)) :: utf8LossyAux fuel r2
        else utf8Repl :: utf8LossyAux fuel r
      | [] => [utf8Repl]
    else if 224 ≤ b && b ≤ 239 then
      match r with
      | b2 :: b3 :: r3 =>
        if utf8Valid3 b b2 b3 then
          Char.ofNat ((b - 224) * 4096 + (b2 - 128) * 64 + (b3 - 128)) :: utf8LossyAux fuel r3
        else utf8Repl :: utf8LossyAux fuel r
      | _ => utf8Repl :: utf8LossyAux fuel r
    else if 240 ≤ b && b ≤ 244 then
      match r with
      | b2 :: b3 :: b4 :: r4 =>
        if utf8Valid4 b b2 b3 b4 then
          Char.ofNat ((b - 240) * 262144 + (b2 - 128) * 4096 + (b3 - 128) * 64 + (b4 - 128)) ::
            utf8LossyAux fuel r4
        else utf8Repl :: utf8LossyAux fuel r
      | _ => utf8Repl :: utf8LossyAux fuel r
    else utf8Repl :: utf8LossyAux fuel r

/-- `String::from_utf8_lossy` over a byte list. -/
def utf8Lossy (l : List Nat) : String := String.mk (utf8LossyAux l.length l)

/-- Strict UTF-8 decoding (`String::from_utf8` / sqlx text decoding):
succeeds exactly on valid UTF-8, on which it agrees with lossy decoding. -/
def utf8Strict (bs : List Nat) : Option String :=
  if validUtf8 bs then some (utf8Lossy bs) else none

/-! ### Canonical JSON values and compact serde_json-style serialization -/

/-- The canonical JSON-like value produced by the adapters' marshalling:
null, boolean, 64-bit integer, float or string.  The float payload is
carried as an opaque token (an `Int`); no claim depends on float
arithmetic or formatting. -/
inductive JValue where
  | null
  | bool (b : Bool)
  | int (i : Int)
  | float (f : Int)
  | str (s : String)
deriving DecidableEq, Repr

/-- Lowercase hex digit. -/
def hexDigit (n : Nat) : Char := if n < 10 then Char.ofNat (48 + n) else Char.ofNat (87 + n)

/-- Four lowercase hex digits, as in serde_json's control-character escapes. -/
def hex4 (n : Nat) : String :=
  String.mk [hexDigit (n / 4096 % 16), hexDigit (n / 256 % 16), hexDigit (n / 16 % 16),
    hexDigit (n % 16)]

/-- serde_json string escaping for one character. -/
def jsonEscapeChar (c : Char) : String :=
  if c = '"' then "\\\""
  else if c = '\\' then "\\\\"
  else if c.toNat = 8 then "\\b"
  else if c.toNat = 12 then "\\f"
  else if c = '\n' then "\\n"
  else if c = '\r' then "\\r"
  else if c = '\t' then "\\t"
  else if c.toNat < 32 then "\\u" ++ hex4 c.toNat
  else String.singleton c

/-- serde_json serialization of a string value. -/
def jsonEncodeString (s : String) : String :=
  "\"" ++ String.join (s.data.map jsonEscapeChar) ++ "\""

/-- `serde_json::to_string` of a `Vec<String>` (compact separators). -/
def jsonEncodeStringArray (xs : List String) : String :=
  "[" ++ String.intercalate "," (xs.map jsonEncodeString) ++ "]"

/-- `serde_json::to_string` of a map from strings to strings, in the
iteration order given by the association list. -/
def jsonEncodeStringObject (kvs : List (String × String)) : String :=
  "\x7b" ++
    String.intercalate "," (kvs.map fun kv => jsonEncodeString kv.1 ++ ":" ++ jsonEncodeString kv.2)
    ++ "\x7d"

/-- serde_json serialization of one canonical value. -/
def jsonEncodeJValue : JValue → String
  | .null => "null"
  | .bool b => if b then "true" else "false"
  | .int i => toString i
  | .float f => toString f
  | .str s => jsonEncodeString s

/-- serde_json serialization of one row object (`serde_json::Value::Object`),
in the iteration order given by the association list. -/
def jsonEncodeRowObj (row : List (String × JValue)) : String :=
  "\x7b" ++
    String.intercalate ","
      (row.map fun cell => jsonEncodeString cell.1 ++ ":" ++ jsonEncodeJValue cell.2)
    ++ "\x7d"

/-- serde_json serialization of a list of row objects. -/
def jsonEncodeRowsArray (rows : List (List (String × JValue))) : String :=
  "[" ++ String.intercalate "," (rows.map jsonEncodeRowObj) ++ "]"

/-! ### Connection registry (`AppState`) and handle tokens

Live driver handles are opaque to the gateway logic; each is a token. -/

structure RedisClient where
  token : Nat
deriving DecidableEq, Repr

structure RedisConn where
  token : Nat
deriving DecidableEq, Repr

structure MySqlPool where
  token : Nat
deriving DecidableEq, Repr

structure PgPool where
  token : Nat
deriving DecidableEq, Repr

structure SqlitePool where
  token : Nat
deriving DecidableEq, Repr

structure MongoClient where
  token : Nat
deriving DecidableEq, Repr

structure SshSession where
  token : Nat
deriving DecidableEq, Repr

/-- The process-wide connection registry (`AppState`, lib.rs lines 54-61):
one optional handle per backend kind plus the SSH tunnel sessions keyed by
backend-kind tag. -/
structure AppState where
  redisClient : Option RedisClient
  mysqlPool : Option MySqlPool
  pgPool : Option PgPool
  sqlitePool : Option SqlitePool
  mongoClient : Option MongoClient
  sshSessions : List (String × SshSession)
deriving DecidableEq, Repr

/-- The connection guard shared by every non-connect operation
(`guard.clone().ok_or("Not connected")?`): an empty registry slot yields
the "Not connected" error before the operation's body (and hence before
any network call) runs. -/
def requireConnected {H A : Type} (slot : Option H) (body : H → Except String A) :
    Except String A :=
  match slot with
  | none => Except.error "Not connected"
  | some h => body h

/-! ### SQLite value marshalling (sqlite_get_rows lines 150-227,
sqlite_execute_raw query path lines 1218-1253)

A SQLite value carries one of the five storage classes.  `type_info().name()`
reports "NULL"/"INTEGER"/"REAL"/"TEXT"/"BLOB"; the code branches on it and
reads the column with the panicking getter `row.get`, so a failing decode
aborts instead of returning an error.  The only fallible decode reachable
from the branch structure is `String` from a BLOB, which fails on invalid
UTF-8.  (The "BOOLEAN" branch of the source is unreachable for raw SQLite
values, which never report that storage class.) -/

inductive SqliteVal where
  | vNull
  | vInt (i : Int)
  | vReal (r : Int)
  | vText (s : String)
  | vBlob (bytes : List Nat)
deriving DecidableEq, Repr

/-- Marshal one SQLite column value to a canonical JSON value, as in the
per-column match of `sqlite_get_rows` (duplicated verbatim in the
`sqlite_execute_raw` query path). -/
def sqliteMarshalCell : SqliteVal → Except String JValue
  | .vNull => .ok .null
  | .vInt i => .ok (.int i)
  | .vReal r => .ok (.float r)
  | .vText s => .ok (.str s)
  | .vBlob bs =>
    match utf8Strict bs with
    | some s => .ok (.str s)
    | none => .error "panic: invalid UTF-8 in BLOB while decoding String"

/-! ### MySQL value marshalling (mysql_get_rows lines 748-816,
mysql_execute_raw query path lines 1269-1315)

A fetched MySQL cell is modelled by its nullness, its reported type name
and the outcome of each typed `try_get` the code may attempt. -/

structure MysqlCell where
  isNull : Bool
  typeName : String
  tryI64 : Option Int
  tryF64 : Option Int
  tryBool : Option Bool
  tryBytes : Option (List Nat)
  tryString : Option String
deriving DecidableEq, Repr

/-- Marshal one MySQL cell as in `mysql_get_rows`: every decode uses the
non-panicking `try_get` and falls back to lossy bytes-as-string, then a
string decode, then Null (booleans fall back to Null directly). -/
def mysqlGetRowsMarshalCell (c : MysqlCell) : JValue :=
  if c.isNull then .null
  else if c.typeName = "TINYINT" || c.typeName = "SMALLINT" || c.typeName = "INT" ||
      c.typeName = "BIGINT" then
    match c.tryI64 with
    | some v => .int v
    | none =>
      match c.tryBytes with
      | some bytes => .str (utf8Lossy bytes)
      | none =>
        match c.tryString with
        | some v => .str v
        | none => .null
  else if c.typeName = "FLOAT" || c.typeName = "DOUBLE" || c.typeName = "DECIMAL" then
    match c.tryF64 with
    | some v => .float v
    | none =>
      match c.tryBytes with
      | some bytes => .str (utf8Lossy bytes)
      | none =>
        match c.tryString with
        | some v => .str v
        | none => .null
  else if c.typeName = "BOOLEAN" then
    match c.tryBool with
    | some v => .bool v
    | none => .null
  else if c.typeName = "BINARY" || c.typeName = "VARBINARY" || c.typeName = "BLOB" ||
      c.typeName = "TINYBLOB" || c.typeName = "MEDIUMBLOB" || c.typeName = "LONGBLOB" then
    match c.tryBytes with
    | some bytes => .str (utf8Lossy bytes)
    | none => .null
  else
    match c.tryBytes with
    | some bytes => .str (utf8Lossy bytes)
    | none =>
      match c.tryString with
      | some v => .str v
      | none => .null

/-- Marshal one MySQL cell as in the `mysql_execute_raw` query path: the
typed decode uses `try_get`, but the fallback is the panicking
`row.get::<String>`, modelled as an error when the string decode fails. -/
def mysqlExecRawMarshalCell (c : MysqlCell) : Except String JValue :=
  if c.isNull then .ok .null
  else if c.typeName = "TINYINT" || c.typeName = "SMALLINT" || c.typeName = "INT" ||
      c.typeName = "BIGINT" then
    match c.tryI64 with
    | some v => .ok (.int v)
    | none =>
      match c.tryString with
      | some v => .ok (.str v)
      | none => .error "panic: Row::get::<String> decode failed"
  else if c.typeName = "FLOAT" || c.typeName = "DOUBLE" || c.typeName = "DECIMAL" then
    match c.tryF64 with
    | some v => .ok (.float v)
    | none =>
      match c.tryString with
      | some v => .ok (.str v)
      | none => .error "panic: Row::get::<String> decode failed"
  else if c.typeName = "BOOLEAN" then
    match c.tryBool with
    | some v => .ok (.bool v)
    | none =>
      match c.tryString with
      | some v => .ok (.str v)
      | none => .error "panic: Row::get::<String> decode failed"
  else
    match c.tryString with
    | some v => .ok (.str v)
    | none => .error "panic: Row::get::<String> decode failed"

/-! ### Postgres value marshalling (postgres_execute_raw query path
lines 1332-1380) -/

structure PgCell where
  isNull : Bool
  typeName : String
  tryI64 : Option Int
  tryF64 : Option Int
  tryBool : Option Bool
  tryString : Option String
deriving DecidableEq, Repr

/-- Marshal one Postgres cell as in the `postgres_execute_raw` query path:
typed decodes use `try_get`, the fallback is the panicking
`row.get::<String>`. -/
def pgExecRawMarshalCell (c : PgCell) : Except String JValue :=
  if c.isNull then .ok .null
  else if c.typeName = "INT2" || c.typeName = "INT4" || c.typeName = "INT8" then
    match c.tryI64 with
    | some v => .ok (.int v)
    | none =>
      match c.tryString with
      | some v => .ok (.str v)
      | none => .error "panic: Row::get::<String> decode failed"
  else if c.typeName = "FLOAT4" || c.typeName = "FLOAT8" || c.typeName = "NUMERIC" then
    match c.tryF64 with
    | some v => .ok (.float v)
    | none =>
      match c.tryString with
      | some v => .ok (.str v)
      | none => .error "panic: Row::get::<String> decode failed"
  else if c.typeName = "BOOL" then
    match c.tryBool with
    | some v => .ok (.bool v)
    | none =>
      match c.tryString with
      | some v => .ok (.str v)
      | none => .error "panic: Row::get::<String> decode failed"
  else
    match c.tryString with
    | some v => .ok (.str v)
    | none => .error "panic: Row::get::<String> decode failed"

/-- Marshal a list of rows cell by cell, aborting on the first panic, as
the per-row/per-column loops of the execute_raw query paths do. -/
def marshalRowsWith {α : Type} (f : α → Except String JValue)
    (rows : List (List (String × α))) : Except String (List (List (String × JValue))) :=
  rows.mapM fun row => row.mapM fun cell => (f cell.2).map fun j => (cell.1, j)

/-! ### Row-fetch SQL generation and paging order (claim C1)

`sqlite_get_rows` (line 162) and `mysql_get_rows` (line 741) interpolate a
plain `SELECT * ... LIMIT ... OFFSET ...`; only `postgres_get_rows`
(lines 1098-1118) first looks up a primary key and, when one is found,
adds `ORDER BY "pk" ASC` before the paging clause.  The ordering
semantics is modelled on an abstract table: `defaultOrder` is the row
sequence the engine enumerates for an unordered scan (each row identified
by its primary-key value), `ORDER BY pk ASC` is a stable sort by that
value, and `LIMIT l OFFSET o` is `(·.drop o).take l`. -/

/-- The SQL text built by `sqlite_get_rows` (line 162). -/
def sqlite_get_rows_query (tableName : String) (limit offset : Int) : String :=
  "SELECT * FROM \"" ++ tableName ++ "\" LIMIT " ++ toString limit ++ " OFFSET " ++
    toString offset

/-- The SQL text built by `mysql_get_rows` (line 741). -/
def mysql_get_rows_query (tableName : String) (limit offset : Int) : String :=
  "SELECT * FROM `" ++ tableName ++ "` LIMIT " ++ toString limit ++ " OFFSET " ++
    toString offset

/-- The inner SQL text built by `postgres_get_rows` (lines 1114-1118),
depending on whether a primary key was discovered. -/
def postgres_get_rows_inner_query (tableName : String) (pkRow : Option String)
    (limit offset : Int) : String :=
  match pkRow with
  | some pk =>
    "SELECT * FROM public.\"" ++ tableName ++ "\" ORDER BY \"" ++ pk ++ "\" ASC LIMIT " ++
      toString limit ++ " OFFSET " ++ toString offset
  | none =>
    "SELECT * FROM public.\"" ++ tableName ++ "\" LIMIT " ++ toString limit ++ " OFFSET " ++
      toString offset

/-- Abstract table state for the ordering semantics: the discovered
single-column primary key (if any) and the engine's default enumeration
order of the rows, each row identified by its primary-key value. -/
structure TableState where
  pk : Option String
  defaultOrder : List Int
deriving DecidableEq, Repr

/-- `LIMIT limit OFFSET offset` applied to a row sequence. -/
def pageRows (rows : List Int) (limit offset : Nat) : List Int :=
  (rows.drop offset).take limit

/-- Row order returned by `sqlite_get_rows`: engine default order, paged
(no ORDER BY is generated, see `sqlite_get_rows_query`). -/
def sqlite_get_rows_order (t : TableState) (limit offset : Nat) : List Int :=
  pageRows t.defaultOrder limit offset

/-- Row order returned by `mysql_get_rows`: engine default order, paged
(no ORDER BY is generated, see `mysql_get_rows_query`). -/
def mysql_get_rows_order (t : TableState) (limit offset : Nat) : List Int :=
  pageRows t.defaultOrder limit offset

/-- Row order returned by `postgres_get_rows`: when a primary key is
discovered the rows are sorted by it ascending before paging, otherwise
the default order is paged. -/
def postgres_get_rows_order (t : TableState) (limit offset : Nat) : List Int :=
  match t.pk with
  | some _ => pageRows (List.insertionSort (· ≤ ·) t.defaultOrder) limit offset
  | none => pageRows t.defaultOrder limit offset

/-! ### Statement classification and the execute_raw operations (claim C4) -/

/-- `sqlite_execute_raw` classification (line 1216): SELECT / PRAGMA /
EXPLAIN prefixes, case-insensitive, whitespace-trimmed. -/
def sqliteIsQuery (sql : String) : Bool :=
  strStartsWith (strToUpper (strTrim sql)) "SELECT" ||
  strStartsWith (strToUpper (strTrim sql)) "PRAGMA" ||
  strStartsWith (strToUpper (strTrim sql)) "EXPLAIN"

/-- `mysql_execute_raw` classification (line 1267): SELECT / SHOW /
DESCRIBE / EXPLAIN prefixes. -/
def mysqlIsQuery (sql : String) : Bool :=
  strStartsWith (strToUpper (strTrim sql)) "SELECT" ||
  strStartsWith (strToUpper (strTrim sql)) "SHOW" ||
  strStartsWith (strToUpper (strTrim sql)) "DESCRIBE" ||
  strStartsWith (strToUpper (strTrim sql)) "EXPLAIN"

/-- `postgres_execute_raw` classification (line 1330): SELECT / SHOW /
EXPLAIN prefixes. -/
def postgresIsQuery (sql : String) : Bool :=
  strStartsWith (strToUpper (strTrim sql)) "SELECT" ||
  strStartsWith (strToUpper (strTrim sql)) "SHOW" ||
  strStartsWith (strToUpper (strTrim sql)) "EXPLAIN"

/-- `sqlite_execute_raw` (lines 1210-1258): guard, classify, then either
fetch-and-marshal (query) or execute and report the affected-row count. -/
def sqlite_execute_raw (slot : Option SqlitePool)
    (fetchAll : String → Except String (List (List (String × SqliteVal))))
    (execStmt : String → Except String Nat)
    (sql : String) : Except String String :=
  match slot with
  | none => .error "Not connected"
  | some _ =>
    if sqliteIsQuery sql then
      match fetchAll sql with
      | .error e => .error e
      | .ok rows =>
        match marshalRowsWith sqliteMarshalCell rows with
        | .error e => .error e
        | .ok jrows => .ok (jsonEncodeRowsArray jrows)
    else
      match execStmt sql with
      | .error e => .error e
      | .ok n => .ok ("Success: " ++ toString n ++ " rows affected")

/-- `mysql_execute_raw` (lines 1261-1321). -/
def mysql_execute_raw (slot : Option MySqlPool)
    (fetchAll : String → Except String (List (List (String × MysqlCell))))
    (execStmt : String → Except String Nat)
    (sql : String) : Except String String :=
  match slot with
  | none => .error "Not connected"
  | some _ =>
    if mysqlIsQuery sql then
      match fetchAll sql with
      | .error e => .error e
      | .ok rows =>
        match marshalRowsWith mysqlExecRawMarshalCell rows with
        | .error e => .error e
        | .ok jrows => .ok (jsonEncodeRowsArray jrows)
    else
      match execStmt sql with
      | .error e => .error e
      | .ok n => .ok ("Success: " ++ toString n ++ " rows affected")

/-- `postgres_execute_raw` (lines 1324-1385). -/
def postgres_execute_raw (slot : Option PgPool)
    (fetchAll : String → Except String (List (List (String × PgCell))))
    (execStmt : String → Except String Nat)
    (sql : String) : Except String String :=
  match slot with
  | none => .error "Not connected"
  | some _ =>
    if postgresIsQuery sql then
      match fetchAll sql with
      | .error e => .error e
      | .ok rows =>
        match marshalRowsWith pgExecRawMarshalCell rows with
        | .error e => .error e
        | .ok jrows => .ok (jsonEncodeRowsArray jrows)
    else
      match execStmt sql with
      | .error e => .error e
      | .ok n => .ok ("Success: " ++ toString n ++ " rows affected")

/-! ### Guard aspect of the remaining non-connect operations (claim C3)

Each of these source functions starts with the identical pattern
`let pool = { guard.clone().ok_or("Not connected")? };` followed by the
operation's body (SQL construction, driver calls, result shaping).  For
the guard claim the body is abstracted as an oracle; its result type
matches the source function's return type. -/

def sqlite_get_tables (slot : Option SqlitePool)
    (body : SqlitePool → Except String (List String)) : Except String (List String) :=
  requireConnected slot body

def sqlite_get_rows (slot : Option SqlitePool)
    (body : SqlitePool → Except String (List String)) : Except String (List String) :=
  requireConnected slot body

def sqlite_update_cell (slot : Option SqlitePool)
    (body : SqlitePool → Except String Nat) : Except String Nat :=
  requireConnected slot body

def sqlite_get_primary_key (slot : Option SqlitePool)
    (body : SqlitePool → Except String (Option String)) : Except String (Option String) :=
  requireConnected slot body

def sqlite_get_columns (slot : Option SqlitePool)
    (body : SqlitePool → Except String (List String)) : Except String (List String) :=
  requireConnected slot body

def sqlite_get_count (slot : Option SqlitePool)
    (body : SqlitePool → Except String Int) : Except String Int :=
  requireConnected slot body

def sqlite_insert_row (slot : Option SqlitePool)
    (body : SqlitePool → Except String Nat) : Except String Nat :=
  requireConnected slot body

def sqlite_delete_row (slot : Option SqlitePool)
    (body : SqlitePool → Except String Nat) : Except String Nat :=
  requireConnected slot body

def sqlite_drop_table (slot : Option SqlitePool)
    (body : SqlitePool → Except String Unit) : Except String Unit :=
  requireConnected slot body

def sqlite_rename_table (slot : Option SqlitePool)
    (body : SqlitePool → Except String Unit) : Except String Unit :=
  requireConnected slot body

def mysql_get_tables (slot : Option MySqlPool)
    (body : MySqlPool → Except String (List String)) : Except String (List String) :=
  requireConnected slot body

def mysql_get_rows (slot : Option MySqlPool)
    (body : MySqlPool → Except String (List String)) : Except String (List String) :=
  requireConnected slot body

def mysql_get_count (slot : Option MySqlPool)
    (body : MySqlPool → Except String Int) : Except String Int :=
  requireConnected slot body

def mysql_get_primary_key (slot : Option MySqlPool)
    (body : MySqlPool → Except String (Option String)) : Except String (Option String) :=
  requireConnected slot body

def mysql_update_cell (slot : Option MySqlPool)
    (body : MySqlPool → Except String Nat) : Except String Nat :=
  requireConnected slot body

def mysql_get_databases (slot : Option MySqlPool)
    (body : MySqlPool → Except String (List (String × Int))) :
    Except String (List (String × Int)) :=
  requireConnected slot body

def mysql_use_database (slot : Option MySqlPool)
    (body : MySqlPool → Except String Unit) : Except String Unit :=
  requireConnected slot body

def mysql_get_tables_with_size (slot : Option MySqlPool)
    (body : MySqlPool → Except String (List (String × Int))) :
    Except String (List (String × Int)) :=
  requireConnected slot body

def mysql_get_views (slot : Option MySqlPool)
    (body : MySqlPool → Except String (List String)) : Except String (List String) :=
  requireConnected slot body

def mysql_get_functions (slot : Option MySqlPool)
    (body : MySqlPool → Except String (List String)) : Except String (List String) :=
  requireConnected slot body

def mysql_get_procedures (slot : Option MySqlPool)
    (body : MySqlPool → Except String (List String)) : Except String (List String) :=
  requireConnected slot body

def mysql_get_columns (slot : Option MySqlPool)
    (body : MySqlPool → Except String (List String)) : Except String (List String) :=
  requireConnected slot body

def mysql_insert_row (slot : Option MySqlPool)
    (body : MySqlPool → Except String Nat) : Except String Nat :=
  requireConnected slot body

def mysql_delete_row (slot : Option MySqlPool)
    (body : MySqlPool → Except String Nat) : Except String Nat :=
  requireConnected slot body

def mysql_drop_table (slot : Option MySqlPool)
    (body : MySqlPool → Except String Unit) : Except String Unit :=
  requireConnected slot body

def mysql_rename_table (slot : Option MySqlPool)
    (body : MySqlPool → Except String Unit) : Except String Unit :=
  requireConnected slot body

def postgres_get_databases (slot : Option PgPool)
    (body : PgPool → Except String (List (String × Int))) :
    Except String (List (String × Int)) :=
  requireConnected slot body

def postgres_get_tables (slot : Option PgPool)
    (body : PgPool → Except String (List String)) : Except String (List String) :=
  requireConnected slot body

def postgres_get_tables_with_size (slot : Option PgPool)
    (body : PgPool → Except String (List (String × Int))) :
    Except String (List (String × Int)) :=
  requireConnected slot body

def postgres_get_views (slot : Option PgPool)
    (body : PgPool → Except String (List String)) : Except String (List String) :=
  requireConnected slot body

def postgres_get_functions (slot : Option PgPool)
    (body : PgPool → Except String (List String)) : Except String (List String) :=
  requireConnected slot body

def postgres_get_procedures (slot : Option PgPool)
    (body : PgPool → Except String (List String)) : Except String (List String) :=
  requireConnected slot body

def postgres_get_rows (slot : Option PgPool)
    (body : PgPool → Except String (List String)) : Except String (List String) :=
  requireConnected slot body

def postgres_get_count (slot : Option PgPool)
    (body : PgPool → Except String Int) : Except String Int :=
  requireConnected slot body

def postgres_get_primary_key (slot : Option PgPool)
    (body : PgPool → Except String (Option String)) : Except String (Option String) :=
  requireConnected slot body

def postgres_update_cell (slot : Option PgPool)
    (body : PgPool → Except String Nat) : Except String Nat :=
  requireConnected slot body

def postgres_get_columns (slot : Option PgPool)
    (body : PgPool → Except String (List String)) : Except String (List String) :=
  requireConnected slot body

def postgres_insert_row (slot : Option PgPool)
    (body : PgPool → Except String Nat) : Except String Nat :=
  requireConnected slot body

def postgres_delete_row (slot : Option PgPool)
    (body : PgPool → Except String Nat) : Except String Nat :=
  requireConnected slot body

def postgres_drop_table (slot : Option PgPool)
    (body : PgPool → Except String Unit) : Except String Unit :=
  requireConnected slot body

def postgres_rename_table (slot : Option PgPool)
    (body : PgPool → Except String Unit) : Except String Unit :=
  requireConnected slot body

def redis_get_keys (slot : Option RedisClient)
    (body : RedisClient → Except String (List String)) : Except String (List String) :=
  requireConnected slot body

def redis_set_value (slot : Option RedisClient)
    (body : RedisClient → Except String Unit) : Except String Unit :=
  requireConnected slot body

def redis_del_key (slot : Option RedisClient)
    (body : RedisClient → Except String Unit) : Except String Unit :=
  requireConnected slot body

def redis_get_ttl (slot : Option RedisClient)
    (body : RedisClient → Except String Int) : Except String Int :=
  requireConnected slot body

def redis_rename_key (slot : Option RedisClient)
    (body : RedisClient → Except String Unit) : Except String Unit :=
  requireConnected slot body

/-! ### Key-value adapter: get_value dispatch (claim C8) and raw command
execution (claim C10) -/

/-- `redis_get_value` (lines 596-631): query the key's type tag, then
dispatch on it. -/
def redis_get_value (slot : Option RedisClient)
    (getConn : RedisClient → Except String RedisConn)
    (typeCmd : RedisConn → String → Except String String)
    (getCmd : RedisConn → String → Except String String)
    (hgetallCmd : RedisConn → String → Except String (List (String × String)))
    (lrangeCmd : RedisConn → String → Except String (List String))
    (smembersCmd : RedisConn → String → Except String (List String))
    (zrangeCmd : RedisConn → String → Except String (List String))
    (key : String) : Except String String :=
  match slot with
  | none => .error "Not connected"
  | some client =>
    match getConn client with
    | .error e => .error e
    | .ok con =>
      match typeCmd con key with
      | .error e => .error e
      | .ok keyType =>
        if keyType = "string" then getCmd con key
        else if keyType = "hash" then
          match hgetallCmd con key with
          | .error e => .error e
          | .ok m => .ok (jsonEncodeStringObject m)
        else if keyType = "list" then (lrangeCmd con key).map jsonEncodeStringArray
        else if keyType = "set" then (smembersCmd con key).map jsonEncodeStringArray
        else if keyType = "zset" then (zrangeCmd con key).map jsonEncodeStringArray
        else .ok ("Unsupported type: " ++ keyType)

/-- A redis protocol reply value (`redis::Value`), with the variants the
formatter distinguishes; every remaining variant is carried as its debug
representation, which is what `format!("\x7b:?\x7d", v)` would print. -/
inductive RedisValue where
  | nil
  | int (i : Int)
  | bulkString (bytes : List Nat)
  | array (items : List RedisValue)
  | simpleString (s : String)
  | okay
  | other (debugRepr : String)
deriving Repr

/-- `format_redis_value` (lines 688-701). -/
def formatRedisValue : RedisValue → String
  | .nil => "(nil)"
  | .int i => toString i
  | .bulkString bytes => utf8Lossy bytes
  | .array items =>
    "[" ++ String.intercalate ", " (items.attach.map fun x => formatRedisValue x.1) ++ "]"
  | .simpleString s => s
  | .okay => "OK"
  | .other debugRepr => debugRepr
decreasing_by
  have h1 := List.sizeOf_lt_of_mem x.2
  simp only [RedisValue.array.sizeOf_spec]
  omega

/-- `redis_execute_raw` (lines 669-704): split the command line on
whitespace; no parts is the "Empty command" error, otherwise run the
command and format the reply. -/
def redis_execute_raw (slot : Option RedisClient)
    (getConn : RedisClient → Except String RedisConn)
    (runCmd : RedisConn → List String → Except String RedisValue)
    (command : String) : Except String String :=
  match slot with
  | none => .error "Not connected"
  | some client =>
    match getConn client with
    | .error e => .error e
    | .ok con =>
      let parts := splitWhitespace command
      if parts.isEmpty then .error "Empty command"
      else (runCmd con parts).map formatRedisValue

/-! ### SSH tunnel (claims C5, C6, C9) -/

/-- `SshConfig` (lines 30-41). -/
structure SshConfig where
  host : String
  port : Nat
  username : String
  password : Option String
  privateKeyPath : Option String
deriving DecidableEq, Repr

/-- `check_server_key` of the russh `ClientHandler` (lines 46-52): accepts
every presented server public key. -/
structure PublicKey where
  keyBytes : List Nat
deriving DecidableEq, Repr

def check_server_key (_key : PublicKey) : Except String Bool := .ok true

/-- Which tunnel-side effects `establish_ssh_tunnel` performed before
returning: whether the local listener was bound and whether the
background forwarding task was spawned. -/
structure TunnelTrace where
  listenerBound : Bool
  forwardTaskSpawned : Bool
deriving DecidableEq, Repr

/-- `establish_ssh_tunnel` (lines 65-118): connect, authenticate (password
only), bind `127.0.0.1:0`, spawn the accept loop.  Transport connection,
authentication and listener binding are oracles; the returned trace
records which effects happened.  russh's `authenticate_password` resolves
to a result whose success payload (a boolean / auth result) says whether
the server actually accepted the credentials, while its `Err` case is a
driver/transport-level failure.  The source writes
`.map_err(|e| format!("SSH Auth Error: \x7b\x7d", e))?;`, which
propagates only the `Err` case and discards the acceptance payload, so a
rejected password does not stop tunnel establishment. -/
def establish_ssh_tunnel (cfg : SshConfig) (_remoteHost : String) (_remotePort : Nat)
    (connectRes : Except String SshSession)
    (authRes : SshSession → String → String → Except String Bool)
    (bindRes : Except String Nat) :
    Except String (Nat × SshSession) × TunnelTrace :=
  match connectRes with
  | .error e => (.error ("SSH Connect Error: " ++ e), ⟨false, false⟩)
  | .ok session =>
    match cfg.password with
    | some pwd =>
      match authRes session cfg.username pwd with
      | .error e => (.error ("SSH Auth Error: " ++ e), ⟨false, false⟩)
      | .ok _accepted =>
        match bindRes with
        | .error e => (.error e, ⟨false, false⟩)
        | .ok localPort => (.ok (localPort, session), ⟨true, true⟩)
    | none => (.error "Only password auth supported for now", ⟨false, false⟩)

/-- One iteration's worth of input to the tunnel's background accept loop
(lines 94-115): either a local connection was accepted (with the outcome
of opening its forwarded channel, identified by a token when it opens),
or the accept itself failed. -/
inductive AcceptEvent where
  | accepted (channelOpen : Except String Nat)
  | acceptError
deriving Repr

/-- What the accept loop did over a finite trace of accept events. -/
structure LoopOutcome where
  copyTasksSpawned : List Nat
  channelFailuresLogged : Nat
  exited : Bool
deriving DecidableEq, Repr

/-- The accept loop (lines 95-114): a successful accept whose channel
opens spawns a bidirectional-copy task and continues; a channel-open
failure logs and continues; an accept failure breaks out of the loop, and
nothing restarts it (events after the break are never processed). -/
def tunnelAcceptLoop : List AcceptEvent → LoopOutcome
  | [] => ⟨[], 0, false⟩
  | .acceptError :: _ => ⟨[], 0, true⟩
  | .accepted (.ok ch) :: rest =>
    let o := tunnelAcceptLoop rest
    ⟨ch :: o.copyTasksSpawned, o.channelFailuresLogged, o.exited⟩
  | .accepted (.error _) :: rest =>
    let o := tunnelAcceptLoop rest
    ⟨o.copyTasksSpawned, o.channelFailuresLogged + 1, o.exited⟩

/-- True exactly on the accept-failure event. -/
def isAcceptError : AcceptEvent → Bool
  | .acceptError => true
  | _ => false

/-! ### Connect operations and their timeouts (claim C7) -/

/-- `Duration::from_secs(timeout_sec.unwrap_or(5))`: the explicit connect
timeout in seconds, defaulting to 5. -/
def connectTimeoutVal (timeoutSec : Option Nat) : Nat := timeoutSec.getD 5

/-- Outcome of a connect attempt made under a deadline: it can exceed the
deadline, fail for another reason, or succeed. -/
inductive ConnAttempt (γ : Type) where
  | timeout (e : String)
  | failed (e : String)
  | ok (c : γ)
deriving Repr

/-- `connect_redis` (lines 402-440): optional tunnel, open the client,
get a multiplexed connection under `tokio::time::timeout` (whose elapse
is mapped to the fixed "Connection timed out" message), PING, and only
then store the client in the registry slot. -/
def connect_redis (st : AppState) (host : String) (port : Nat) (password : Option String)
    (timeoutSec : Option Nat) (sshConfig : Option SshConfig)
    (tunnelRes : Except String (Nat × SshSession))
    (openClient : String → Nat → Option String → Except String RedisClient)
    (getConn : RedisClient → Nat → ConnAttempt RedisConn)
    (ping : RedisConn → Except String Unit) :
    Except String String × AppState :=
  let timeoutVal := connectTimeoutVal timeoutSec
  let staged : Except String (String × Nat × AppState) :=
    match sshConfig with
    | some _ =>
      match tunnelRes with
      | .error e => .error e
      | .ok (localPort, handle) =>
        .ok ("127.0.0.1", localPort,
          { st with sshSessions := ("redis", handle) :: st.sshSessions })
    | none => .ok (host, port, st)
  match staged with
  | .error e => (.error e, st)
  | .ok (finalHost, finalPort, st1) =>
    match openClient finalHost finalPort password with
    | .error e => (.error e, st1)
    | .ok client =>
      match getConn client timeoutVal with
      | .timeout _ => (.error "Connection timed out", st1)
      | .failed e => (.error e, st1)
      | .ok con =>
        match ping con with
        | .error e => (.error e, st1)
        | .ok _ => (.ok "Connected to Redis", { st1 with redisClient := some client })

/-- The `MySqlConnectOptions` the code builds (lines 466-476): the
password is only set when supplied and non-empty. -/
structure MySqlOpts where
  host : String
  port : Nat
  username : String
  database : String
  password : Option String
deriving DecidableEq, Repr

/-- `connect_mysql` (lines 442-487): optional tunnel, build options
(database defaulting to "mysql"), connect the pool with
`acquire_timeout(timeout_val)` — a timeout surfaces as the driver's own
error message — and only then store the pool. -/
def connect_mysql (st : AppState) (host : String) (port : Nat) (username : String)
    (password : Option String) (database : Option String) (timeoutSec : Option Nat)
    (sshConfig : Option SshConfig) (tunnelRes : Except String (Nat × SshSession))
    (poolConnect : MySqlOpts → Nat → ConnAttempt MySqlPool) :
    Except String String × AppState :=
  let timeoutVal := connectTimeoutVal timeoutSec
  let db := database.getD "mysql"
  let staged : Except String (String × Nat × AppState) :=
    match sshConfig with
    | some _ =>
      match tunnelRes with
      | .error e => .error e
      | .ok (localPort, handle) =>
        .ok ("127.0.0.1", localPort,
          { st with sshSessions := ("mysql", handle) :: st.sshSessions })
    | none => .ok (host, port, st)
  match staged with
  | .error e => (.error e, st)
  | .ok (finalHost, finalPort, st1) =>
    let baseOpts : MySqlOpts := ⟨finalHost, finalPort, username, db, none⟩
    let opts :=
      match password with
      | some pwd => if pwd ≠ "" then { baseOpts with password := some pwd } else baseOpts
      | none => baseOpts
    match poolConnect opts timeoutVal with
    | .timeout e => (.error e, st1)
    | .failed e => (.error e, st1)
    | .ok pool => (.ok "Connected to MySQL", { st1 with mysqlPool := some pool })

/-- The `PgConnectOptions` the code builds (lines 513-524): SSL is always
disabled; the password is only set when supplied and non-empty. -/
structure PgOpts where
  host : String
  port : Nat
  username : String
  database : String
  sslDisabled : Bool
  password : Option String
deriving DecidableEq, Repr

/-- `connect_postgres` (lines 489-536): as `connect_mysql`, with database
defaulting to "postgres" and SSL disabled. -/
def connect_postgres (st : AppState) (host : String) (port : Nat) (username : String)
    (password : Option String) (database : Option String) (timeoutSec : Option Nat)
    (sshConfig : Option SshConfig) (tunnelRes : Except String (Nat × SshSession))
    (poolConnect : PgOpts → Nat → ConnAttempt PgPool) :
    Except String String × AppState :=
  let timeoutVal := connectTimeoutVal timeoutSec
  let db := database.getD "postgres"
  let staged : Except String (String × Nat × AppState) :=
    match sshConfig with
    | some _ =>
      match tunnelRes with
      | .error e => .error e
      | .ok (localPort, handle) =>
        .ok ("127.0.0.1", localPort,
          { st with sshSessions := ("postgres", handle) :: st.sshSessions })
    | none => .ok (host, port, st)
  match staged with
  | .error e => (.error e, st)
  | .ok (finalHost, finalPort, st1) =>
    let baseOpts : PgOpts := ⟨finalHost, finalPort, username, db, true, none⟩
    let opts :=
      match password with
      | some pwd => if pwd ≠ "" then { baseOpts with password := some pwd } else baseOpts
      | none => baseOpts
    match poolConnect opts timeoutVal with
    | .timeout e => (.error e, st1)
    | .failed e => (.error e, st1)
    | .ok pool => (.ok "Connected to PostgreSQL", { st1 with pgPool := some pool })

/-- The mongodb `ClientOptions` the code derives from the parsed URI
(lines 558-570). -/
structure MongoOpts where
  uri : String
  connectTimeout : Option Nat
  serverSelectionTimeout : Option Nat
  credential : Option (String × String)
deriving DecidableEq, Repr

/-- `connect_mongodb` (lines 538-582): optional tunnel, parse the URI, set
both timeouts to `timeout_val`, set the credential when both username and
password are supplied, build the client, ping via `list_database_names`
(where a deadline elapse surfaces as the driver's error), and only then
store the client. -/
def connect_mongodb (st : AppState) (host : String) (port : Nat)
    (username password : Option String) (timeoutSec : Option Nat)
    (sshConfig : Option SshConfig) (tunnelRes : Except String (Nat × SshSession))
    (parseOpts : String → Except String MongoOpts)
    (withOptions : MongoOpts → Except String MongoClient)
    (listDatabaseNames : MongoClient → ConnAttempt (List String)) :
    Except String String × AppState :=
  let timeoutVal := connectTimeoutVal timeoutSec
  let staged : Except String (String × Nat × AppState) :=
    match sshConfig with
    | some _ =>
      match tunnelRes with
      | .error e => .error e
      | .ok (localPort, handle) =>
        .ok ("127.0.0.1", localPort,
          { st with sshSessions := ("mongodb", handle) :: st.sshSessions })
    | none => .ok (host, port, st)
  match staged with
  | .error e => (.error e, st)
  | .ok (finalHost, finalPort, st1) =>
    match parseOpts ("mongodb://" ++ finalHost ++ ":" ++ toString finalPort) with
    | .error e => (.error e, st1)
    | .ok parsed =>
      let o1 := { parsed with
        connectTimeout := some timeoutVal, serverSelectionTimeout := some timeoutVal }
      let opts :=
        match username, password with
        | some u, some p => { o1 with credential := some (u, p) }
        | _, _ => o1
      match withOptions opts with
      | .error e => (.error e, st1)
      | .ok client =>
        match listDatabaseNames client with
        | .timeout e => (.error e, st1)
        | .failed e => (.error e, st1)
        | .ok _ => (.ok "Connected to MongoDB", { st1 with mongoClient := some client })

/-! ## Theorems -/

/-- Claim C9: the tunnel's SSH handler accepts every server host key
unconditionally — `check_server_key` returns true for every presented
public key, so `open_tunnel` performs no server-identity verification and
can never fail on a host-key mismatch. -/
theorem check_server_key_accepts_all :
    ∀ key : PublicKey, check_server_key key = Except.ok true :=
  fun _ => rfl

/-- Claim C6: a channel-open failure for one accepted connection never
terminates the accept loop — it is logged and the remaining events are
still processed exactly as before; the loop exits precisely when an
accept itself fails; and after an accept failure nothing is processed any
more (the loop is not restarted). -/
theorem tunnel_accept_loop_resilient :
    (∀ (e : String) (rest : List AcceptEvent),
      tunnelAcceptLoop (AcceptEvent.accepted (Except.error e) :: rest) =
        { tunnelAcceptLoop rest with
            channelFailuresLogged := (tunnelAcceptLoop rest).channelFailuresLogged + 1 }) ∧
    (∀ evs : List AcceptEvent, (tunnelAcceptLoop evs).exited = evs.any isAcceptError) ∧
    (∀ rest rest' : List AcceptEvent,
      tunnelAcceptLoop (AcceptEvent.acceptError :: rest) =
        tunnelAcceptLoop (AcceptEvent.acceptError :: rest')) := by
  refine ⟨fun e rest => rfl, ?_, fun rest rest' => rfl⟩
  intro evs
  induction evs with
  | nil => rfl
  | cons ev rest ih =>
    cases ev with
    | acceptError => rfl
    | accepted co =>
      cases co with
      | ok ch => simpa [tunnelAcceptLoop, isAcceptError] using ih
      | error e => simpa [tunnelAcceptLoop, isAcceptError] using ih

/-- Claim C3: every backend operation other than connect returns the
distinct "Not connected" error when the backend's registry slot is empty,
before consulting any of its driver/network oracles (the result is the
same for every oracle, so no network call can have been attempted). -/
theorem not_connected_guard :
    (∀ body, sqlite_get_tables none body = Except.error "Not connected") ∧
    (∀ body, sqlite_get_rows none body = Except.error "Not connected") ∧
    (∀ body, sqlite_update_cell none body = Except.error "Not connected") ∧
    (∀ body, sqlite_get_primary_key none body = Except.error "Not connected") ∧
    (∀ body, sqlite_get_columns none body = Except.error "Not connected") ∧
    (∀ body, sqlite_get_count none body = Except.error "Not connected") ∧
    (∀ body, sqlite_insert_row none body = Except.error "Not connected") ∧
    (∀ body, sqlite_delete_row none body = Except.error "Not connected") ∧
    (∀ body, sqlite_drop_table none body = Except.error "Not connected") ∧
    (∀ body, sqlite_rename_table none body = Except.error "Not connected") ∧
    (∀ fetchAll execStmt sql,
      sqlite_execute_raw none fetchAll execStmt sql = Except.error "Not connected") ∧
    (∀ body, mysql_get_tables none body = Except.error "Not connected") ∧
    (∀ body, mysql_get_rows none body = Except.error "Not connected") ∧
    (∀ body, mysql_get_count none body = Except.error "Not connected") ∧
    (∀ body, mysql_get_primary_key none body = Except.error "Not connected") ∧
    (∀ body, mysql_update_cell none body = Except.error "Not connected") ∧
    (∀ body, mysql_get_databases none body = Except.error "Not connected") ∧
    (∀ body, mysql_use_database none body = Except.error "Not connected") ∧
    (∀ body, mysql_get_tables_with_size none body = Except.error "Not connected") ∧
    (∀ body, mysql_get_views none body = Except.error "Not connected") ∧
    (∀ body, mysql_get_functions none body = Except.error "Not connected") ∧
    (∀ body, mysql_get_procedures none body = Except.error "Not connected") ∧
    (∀ body, mysql_get_columns none body = Except.error "Not connected") ∧
    (∀ body, mysql_insert_row none body = Except.error "Not connected") ∧
    (∀ body, mysql_delete_row none body = Except.error "Not connected") ∧
    (∀ body, mysql_drop_table none body = Except.error "Not connected") ∧
    (∀ body, mysql_rename_table none body = Except.error "Not connected") ∧
    (∀ fetchAll execStmt sql,
      mysql_execute_raw none fetchAll execStmt sql = Except.error "Not connected") ∧
    (∀ body, postgres_get_databases none body = Except.error "Not connected") ∧
    (∀ body, postgres_get_tables none body = Except.error "Not connected") ∧
    (∀ body, postgres_get_tables_with_size none body = Except.error "Not connected") ∧
    (∀ body, postgres_get_views none body = Except.error "Not connected") ∧
    (∀ body, postgres_get_functions none body = Except.error "Not connected") ∧
    (∀ body, postgres_get_procedures none body = Except.error "Not connected") ∧
    (∀ body, postgres_get_rows none body = Except.error "Not connected") ∧
    (∀ body, postgres_get_count none body = Except.error "Not connected") ∧
    (∀ body, postgres_get_primary_key none body = Except.error "Not connected") ∧
    (∀ body, postgres_update_cell none body = Except.error "Not connected") ∧
    (∀ body, postgres_get_columns none body = Except.error "Not connected") ∧
    (∀ body, postgres_insert_row none body = Except.error "Not connected") ∧
    (∀ body, postgres_delete_row none body = Except.error "Not connected") ∧
    (∀ body, postgres_drop_table none body = Except.error "Not connected") ∧
    (∀ body, postgres_rename_table none body = Except.error "Not connected") ∧
    (∀ fetchAll execStmt sql,
      postgres_execute_raw none fetchAll execStmt sql = Except.error "Not connected") ∧
    (∀ body, redis_get_keys none body = Except.error "Not connected") ∧
    (∀ body, redis_set_value none body = Except.error "Not connected") ∧
    (∀ body, redis_del_key none body = Except.error "Not connected") ∧
    (∀ body, redis_get_ttl none body = Except.error "Not connected") ∧
    (∀ body, redis_rename_key none body = Except.error "Not connected") ∧
    (∀ getConn typeCmd getCmd hgetallCmd lrangeCmd smembersCmd zrangeCmd key,
      redis_get_value none getConn typeCmd getCmd hgetallCmd lrangeCmd smembersCmd
        zrangeCmd key = Except.error "Not connected") ∧
    (∀ getConn runCmd command,
      redis_execute_raw none getConn runCmd command = Except.error "Not connected") := by
  repeat' apply And.intro
  all_goals intros
  all_goals rfl

/-- Claim C10: `redis_execute_raw` rejects a command line that splits on
whitespace into no parts — given a connection, it returns the "Empty
command" error, and the command-execution oracle is never consulted (the
result is the same for every `runCmd`). -/
theorem redis_execute_raw_empty
    (client : RedisClient) (con : RedisConn)
    (getConn : RedisClient → Except String RedisConn)
    (runCmd : RedisConn → List String → Except String RedisValue)
    (command : String)
    (hconn : getConn client = Except.ok con)
    (hempty : splitWhitespace command = []) :
    redis_execute_raw (some client) getConn runCmd command = Except.error "Empty command" := by
  simp [redis_execute_raw, hconn, hempty]

/-- Witness for C10 at the whitespace-only command "  ". -/
theorem redis_execute_raw_empty_witness :
    redis_execute_raw (some ⟨0⟩) (fun _ => Except.ok ⟨0⟩)
      (fun _ parts => Except.ok (RedisValue.int parts.length)) "  " =
      Except.error "Empty command" :=
  redis_execute_raw_empty ⟨0⟩ ⟨0⟩ (fun _ => Except.ok ⟨0⟩)
    (fun _ parts => Except.ok (RedisValue.int parts.length)) "  " rfl (by decide)

/-- Claim C5 counterexample: an authentication failure that russh reports
as `authenticate_password` resolving with a rejected-credentials payload
(`Ok(false)`) is NOT fatal to the call — the source discards the
acceptance payload with `.map_err(..)?;`, so the tunnel is established
(listener bound, forwarding task spawned) and returned as if
authenticated, refuting "every authentication or transport failure is
fatal to the open_tunnel call and reported to the caller as an error". -/
theorem ssh_tunnel_rejected_password_counterexample :
    establish_ssh_tunnel ⟨"bastion", 22, "admin", some "wrong-password", none⟩ "db" 5432
      (Except.ok ⟨7⟩) (fun _ _ _ => Except.ok false) (Except.ok 49152) =
      (Except.ok (49152, ⟨7⟩), ⟨true, true⟩) := rfl

/-- Claim C5 (amended): `establish_ssh_tunnel` supports only password
authentication — with the transport connected, a configuration without a
password fails with the distinct unsupported-auth error, with the local
listener not bound and the forwarding task not spawned; a transport
failure or a driver-level (`Err`) authentication failure is fatal to the
call and reported to the caller; but the acceptance payload of
`authenticate_password` is discarded, so a rejected password (`Ok(false)`)
does not stop the call: the listener is bound, the forwarding task is
spawned and the tunnel is returned as if authenticated. -/
theorem ssh_tunnel_auth_amended
    (cfg : SshConfig) (remoteHost : String) (remotePort : Nat)
    (session : SshSession)
    (authRes : SshSession → String → String → Except String Bool)
    (bindRes : Except String Nat) :
    (cfg.password = none →
      establish_ssh_tunnel cfg remoteHost remotePort (Except.ok session) authRes bindRes =
        (Except.error "Only password auth supported for now", ⟨false, false⟩)) ∧
    (∀ e : String,
      establish_ssh_tunnel cfg remoteHost remotePort (Except.error e) authRes bindRes =
        (Except.error ("SSH Connect Error: " ++ e), ⟨false, false⟩)) ∧
    (∀ pwd e : String, cfg.password = some pwd →
      authRes session cfg.username pwd = Except.error e →
      establish_ssh_tunnel cfg remoteHost remotePort (Except.ok session) authRes bindRes =
        (Except.error ("SSH Auth Error: " ++ e), ⟨false, false⟩)) ∧
    (∀ (pwd : String) (accepted : Bool) (localPort : Nat), cfg.password = some pwd →
      authRes session cfg.username pwd = Except.ok accepted →
      bindRes = Except.ok localPort →
      establish_ssh_tunnel cfg remoteHost remotePort (Except.ok session) authRes bindRes =
        (Except.ok (localPort, session), ⟨true, true⟩)) := by
  refine ⟨?_, fun e => rfl, ?_, ?_⟩
  · intro h
    simp [establish_ssh_tunnel, h]
  · intro pwd e hp ha
    simp [establish_ssh_tunnel, hp, ha]
  · intro pwd accepted localPort hp ha hb
    simp [establish_ssh_tunnel, hp, ha, hb]

/-- Witness for the amended C5: a concrete passwordless config fails with
the unsupported-auth error and performs no tunnel-side effects, and a
concrete rejected-credentials authentication still establishes the
tunnel. -/
theorem ssh_tunnel_auth_amended_witness :
    establish_ssh_tunnel ⟨"gateway", 2222, "ops", none, none⟩ "db" 3306 (Except.ok ⟨9⟩)
      (fun _ _ _ => Except.ok true) (Except.ok 50100) =
      (Except.error "Only password auth supported for now", ⟨false, false⟩) ∧
    establish_ssh_tunnel ⟨"gateway", 2222, "ops", some "bad", none⟩ "db" 3306 (Except.ok ⟨9⟩)
      (fun _ _ _ => Except.ok false) (Except.ok 50100) =
      (Except.ok (50100, ⟨9⟩), ⟨true, true⟩) :=
  ⟨(ssh_tunnel_auth_amended ⟨"gateway", 2222, "ops", none, none⟩ "db" 3306 ⟨9⟩
      (fun _ _ _ => Except.ok true) (Except.ok 50100)).1 rfl,
   (ssh_tunnel_auth_amended ⟨"gateway", 2222, "ops", some "bad", none⟩ "db" 3306 ⟨9⟩
      (fun _ _ _ => Except.ok false) (Except.ok 50100)).2.2.2 "bad" false 50100 rfl rfl rfl⟩

/-- Claim C4: in each SQL dialect's `execute_raw`, a statement whose
leading-whitespace-trimmed, case-folded text begins with one of that
dialect's read-only keywords (`sqliteIsQuery` / `mysqlIsQuery` /
`postgresIsQuery`) is fetched and returned as a list of marshalled rows,
while any other statement is executed and reported exactly as
"Success: N rows affected" with N the affected-row count. -/
theorem execute_raw_classification :
    (∀ (pool : SqlitePool) fetchAll execStmt (sql : String) rows jrows,
      sqliteIsQuery sql = true → fetchAll sql = Except.ok rows →
      marshalRowsWith sqliteMarshalCell rows = Except.ok jrows →
      sqlite_execute_raw (some pool) fetchAll execStmt sql =
        Except.ok (jsonEncodeRowsArray jrows)) ∧
    (∀ (pool : SqlitePool) fetchAll execStmt (sql : String) (n : Nat),
      sqliteIsQuery sql = false → execStmt sql = Except.ok n →
      sqlite_execute_raw (some pool) fetchAll execStmt sql =
        Except.ok ("Success: " ++ toString n ++ " rows affected")) ∧
    (∀ (pool : MySqlPool) fetchAll execStmt (sql : String) rows jrows,
      mysqlIsQuery sql = true → fetchAll sql = Except.ok rows →
      marshalRowsWith mysqlExecRawMarshalCell rows = Except.ok jrows →
      mysql_execute_raw (some pool) fetchAll execStmt sql =
        Except.ok (jsonEncodeRowsArray jrows)) ∧
    (∀ (pool : MySqlPool) fetchAll execStmt (sql : String) (n : Nat),
      mysqlIsQuery sql = false → execStmt sql = Except.ok n →
      mysql_execute_raw (some pool) fetchAll execStmt sql =
        Except.ok ("Success: " ++ toString n ++ " rows affected")) ∧
    (∀ (pool : PgPool) fetchAll execStmt (sql : String) rows jrows,
      postgresIsQuery sql = true → fetchAll sql = Except.ok rows →
      marshalRowsWith pgExecRawMarshalCell rows = Except.ok jrows →
      postgres_execute_raw (some pool) fetchAll execStmt sql =
        Except.ok (jsonEncodeRowsArray jrows)) ∧
    (∀ (pool : PgPool) fetchAll execStmt (sql : String) (n : Nat),
      postgresIsQuery sql = false → execStmt sql = Except.ok n →
      postgres_execute_raw (some pool) fetchAll execStmt sql =
        Except.ok ("Success: " ++ toString n ++ " rows affected")) := by
  refine ⟨?_, ?_, ?_, ?_, ?_, ?_⟩
  · intro pool fetchAll execStmt sql rows jrows hq hf hm
    simp [sqlite_execute_raw, hq, hf, hm]
  · intro pool fetchAll execStmt sql n hq he
    simp [sqlite_execute_raw, hq, he]
  · intro pool fetchAll execStmt sql rows jrows hq hf hm
    simp [mysql_execute_raw, hq, hf, hm]
  · intro pool fetchAll execStmt sql n hq he
    simp [mysql_execute_raw, hq, he]
  · intro pool fetchAll execStmt sql rows jrows hq hf hm
    simp [postgres_execute_raw, hq, hf, hm]
  · intro pool fetchAll execStmt sql n hq he
    simp [postgres_execute_raw, hq, he]

/-- Witness for C4: a concrete mutation (" delete from t") reports the
affected-row message, and a concrete query ("Select 1") returns a
(here empty) marshalled row list, for the sqlite adapter. -/
theorem execute_raw_classification_witness :
    sqlite_execute_raw (some ⟨0⟩) (fun _ => Except.ok [])
      (fun _ => Except.ok 3) " delete from t" = Except.ok "Success: 3 rows affected" ∧
    sqlite_execute_raw (some ⟨0⟩) (fun _ => Except.ok [])
      (fun _ => Except.ok 3) "Select 1" = Except.ok "[]" :=
  ⟨execute_raw_classification.2.1 ⟨0⟩ (fun _ => Except.ok []) (fun _ => Except.ok 3)
      " delete from t" 3 (by decide) rfl,
   execute_raw_classification.1 ⟨0⟩ (fun _ => Except.ok []) (fun _ => Except.ok 3)
      "Select 1" [] [] (by decide) rfl rfl⟩

/-- Claim C8: `redis_get_value` queries the key's native type tag and
dispatches on it — string keys return the raw string; list, set and
sorted-set keys return a JSON array of member strings; hash keys return a
JSON object of field-to-value strings; and a key of any other type
returns the literal "Unsupported type: <type>" string instead of an
error. -/
theorem redis_get_value_dispatch
    (client : RedisClient) (con : RedisConn)
    (getConn : RedisClient → Except String RedisConn)
    (typeCmd getCmd : RedisConn → String → Except String String)
    (hgetallCmd : RedisConn → String → Except String (List (String × String)))
    (lrangeCmd smembersCmd zrangeCmd : RedisConn → String → Except String (List String))
    (key : String) (hconn : getConn client = Except.ok con) :
    (∀ v, typeCmd con key = Except.ok "string" → getCmd con key = Except.ok v →
      redis_get_value (some client) getConn typeCmd getCmd hgetallCmd lrangeCmd
        smembersCmd zrangeCmd key = Except.ok v) ∧
    (∀ m, typeCmd con key = Except.ok "hash" → hgetallCmd con key = Except.ok m →
      redis_get_value (some client) getConn typeCmd getCmd hgetallCmd lrangeCmd
        smembersCmd zrangeCmd key = Except.ok (jsonEncodeStringObject m)) ∧
    (∀ xs, typeCmd con key = Except.ok "list" → lrangeCmd con key = Except.ok xs →
      redis_get_value (some client) getConn typeCmd getCmd hgetallCmd lrangeCmd
        smembersCmd zrangeCmd key = Except.ok (jsonEncodeStringArray xs)) ∧
    (∀ xs, typeCmd con key = Except.ok "set" → smembersCmd con key = Except.ok xs →
      redis_get_value (some client) getConn typeCmd getCmd hgetallCmd lrangeCmd
        smembersCmd zrangeCmd key = Except.ok (jsonEncodeStringArray xs)) ∧
    (∀ xs, typeCmd con key = Except.ok "zset" → zrangeCmd con key = Except.ok xs →
      redis_get_value (some client) getConn typeCmd getCmd hgetallCmd lrangeCmd
        smembersCmd zrangeCmd key = Except.ok (jsonEncodeStringArray xs)) ∧
    (∀ t, typeCmd con key = Except.ok t → t ≠ "string" → t ≠ "hash" → t ≠ "list" →
      t ≠ "set" → t ≠ "zset" →
      redis_get_value (some client) getConn typeCmd getCmd hgetallCmd lrangeCmd
        smembersCmd zrangeCmd key = Except.ok ("Unsupported type: " ++ t)) := by
  refine ⟨?_, ?_, ?_, ?_, ?_, ?_⟩
  · intro v ht hv
    simp [redis_get_value, hconn, ht, hv]
  · intro m ht hm
    simp [redis_get_value, hconn, ht, hm]
  · intro xs ht hx
    simp [redis_get_value, hconn, ht, hx, Except.map]
  · intro xs ht hx
    simp [redis_get_value, hconn, ht, hx, Except.map]
  · intro xs ht hx
    simp [redis_get_value, hconn, ht, hx, Except.map]
  · intro t ht h1 h2 h3 h4 h5
    simp [redis_get_value, hconn, ht, h1, h2, h3, h4, h5]

/-- Witness for C8: a key whose native type tag is "stream" yields the
literal unsupported-type placeholder. -/
theorem redis_get_value_dispatch_witness :
    redis_get_value (some ⟨0⟩) (fun _ => Except.ok ⟨0⟩)
      (fun _ _ => Except.ok "stream") (fun _ _ => Except.ok "v")
      (fun _ _ => Except.ok []) (fun _ _ => Except.ok [])
      (fun _ _ => Except.ok []) (fun _ _ => Except.ok []) "k" =
      Except.ok "Unsupported type: stream" :=
  (redis_get_value_dispatch ⟨0⟩ ⟨0⟩ (fun _ => Except.ok ⟨0⟩)
      (fun _ _ => Except.ok "stream") (fun _ _ => Except.ok "v")
      (fun _ _ => Except.ok []) (fun _ _ => Except.ok [])
      (fun _ _ => Except.ok []) (fun _ _ => Except.ok []) "k" rfl).2.2.2.2.2
    "stream" rfl (by decide) (by decide) (by decide) (by decide) (by decide)

/-- Claim C7 counterexample: a tunnel-carrying redis connect whose
connection attempt exceeds the timeout returns the timeout error, but
the registry is NOT left without side effects — the SSH session was
inserted into the registry's tunnel map before the timed connect attempt
(lib.rs line 414) and the insertion persists after the timeout. -/
theorem connect_timeout_registry_mutation_counterexample :
    connect_redis ⟨none, none, none, none, none, []⟩ "h" 6379 none none
        (some ⟨"bastion", 22, "admin", some "pw", none⟩) (Except.ok (50000, ⟨7⟩))
        (fun _ _ _ => Except.ok ⟨1⟩) (fun _ _ => ConnAttempt.timeout "elapsed")
        (fun _ => Except.ok ()) =
      (Except.error "Connection timed out",
        ⟨none, none, none, none, none, [("redis", ⟨7⟩)]⟩) ∧
    (⟨none, none, none, none, none, [("redis", ⟨7⟩)]⟩ : AppState) ≠
      ⟨none, none, none, none, none, []⟩ :=
  ⟨rfl, by decide⟩

/-- Claim C7 (amended): every connect operation takes an explicit timeout
in seconds defaulting to 5 when the caller supplies none; when the
connect attempt exceeds the timeout the operation returns a timeout
error (the fixed "Connection timed out" message for redis, the driver's
own timeout message for the pool- and mongodb-based connects) and the
backend's connection slot is left unchanged — on a direct connect the
whole registry is unchanged, but on a tunnel-carrying connect the SSH
session has already been inserted into the registry's tunnel map before
the timed attempt and that insertion persists after the timeout. -/
theorem connect_timeout_amended :
    (connectTimeoutVal none = 5) ∧
    (∀ n, connectTimeoutVal (some n) = n) ∧
    (∀ (st : AppState) host port password timeoutSec tunnelRes openClient
        (getConn : RedisClient → Nat → ConnAttempt RedisConn) ping client msg,
      openClient host port password = Except.ok client →
      getConn client (connectTimeoutVal timeoutSec) = ConnAttempt.timeout msg →
      connect_redis st host port password timeoutSec none tunnelRes openClient getConn ping =
        (Except.error "Connection timed out", st)) ∧
    (∀ (st : AppState) host port password timeoutSec cfg localPort handle openClient
        (getConn : RedisClient → Nat → ConnAttempt RedisConn) ping client msg,
      openClient "127.0.0.1" localPort password = Except.ok client →
      getConn client (connectTimeoutVal timeoutSec) = ConnAttempt.timeout msg →
      connect_redis st host port password timeoutSec (some cfg)
        (Except.ok (localPort, handle)) openClient getConn ping =
        (Except.error "Connection timed out",
          { st with sshSessions := ("redis", handle) :: st.sshSessions })) ∧
    (∀ (st : AppState) host port username password database timeoutSec tunnelRes
        (poolConnect : MySqlOpts → Nat → ConnAttempt MySqlPool) (e : String),
      (∀ o n, poolConnect o n = ConnAttempt.timeout e) →
      connect_mysql st host port username password database timeoutSec none tunnelRes
        poolConnect = (Except.error e, st)) ∧
    (∀ (st : AppState) host port username password database timeoutSec cfg localPort handle
        (poolConnect : MySqlOpts → Nat → ConnAttempt MySqlPool) (e : String),
      (∀ o n, poolConnect o n = ConnAttempt.timeout e) →
      connect_mysql st host port username password database timeoutSec (some cfg)
        (Except.ok (localPort, handle)) poolConnect =
        (Except.error e,
          { st with sshSessions := ("mysql", handle) :: st.sshSessions })) ∧
    (∀ (st : AppState) host port username password database timeoutSec tunnelRes
        (poolConnect : PgOpts → Nat → ConnAttempt PgPool) (e : String),
      (∀ o n, poolConnect o n = ConnAttempt.timeout e) →
      connect_postgres st host port username password database timeoutSec none tunnelRes
        poolConnect = (Except.error e, st)) ∧
    (∀ (st : AppState) host port username password database timeoutSec cfg localPort handle
        (poolConnect : PgOpts → Nat → ConnAttempt PgPool) (e : String),
      (∀ o n, poolConnect o n = ConnAttempt.timeout e) →
      connect_postgres st host port username password database timeoutSec (some cfg)
        (Except.ok (localPort, handle)) poolConnect =
        (Except.error e,
          { st with sshSessions := ("postgres", handle) :: st.sshSessions })) ∧
    (∀ (st : AppState) host port username password timeoutSec tunnelRes parseOpts
        withOptions (listDatabaseNames : MongoClient → ConnAttempt (List String))
        (e : String) opts client,
      parseOpts ("mongodb://" ++ host ++ ":" ++ toString port) = Except.ok opts →
      (∀ o, withOptions o = Except.ok client) →
      listDatabaseNames client = ConnAttempt.timeout e →
      connect_mongodb st host port username password timeoutSec none tunnelRes parseOpts
        withOptions listDatabaseNames = (Except.error e, st)) ∧
    (∀ (st : AppState) host port username password timeoutSec cfg localPort handle parseOpts
        withOptions (listDatabaseNames : MongoClient → ConnAttempt (List String))
        (e : String) opts client,
      parseOpts ("mongodb://127.0.0.1:" ++ toString localPort) = Except.ok opts →
      (∀ o, withOptions o = Except.ok client) →
      listDatabaseNames client = ConnAttempt.timeout e →
      connect_mongodb st host port username password timeoutSec (some cfg)
        (Except.ok (localPort, handle)) parseOpts withOptions listDatabaseNames =
        (Except.error e,
          { st with sshSessions := ("mongodb", handle) :: st.sshSessions })) := by
  refine ⟨rfl, fun n => rfl, ?_, ?_, ?_, ?_, ?_, ?_, ?_, ?_⟩
  · intro st host port password timeoutSec tunnelRes openClient getConn ping client msg
      hopen htimeout
    simp [connect_redis, hopen, htimeout]
  · intro st host port password timeoutSec cfg localPort handle openClient getConn ping
      client msg hopen htimeout
    simp [connect_redis, hopen, htimeout]
  · intro st host port username password database timeoutSec tunnelRes poolConnect e h
    simp [connect_mysql, h]
  · intro st host port username password database timeoutSec cfg localPort handle
      poolConnect e h
    simp [connect_mysql, h]
  · intro st host port username password database timeoutSec tunnelRes poolConnect e h
    simp [connect_postgres, h]
  · intro st host port username password database timeoutSec cfg localPort handle
      poolConnect e h
    simp [connect_postgres, h]
  · intro st host port username password timeoutSec tunnelRes parseOpts withOptions
      listDatabaseNames e opts client hparse hwith hlist
    simp [connect_mongodb, hparse, hwith, hlist]
  · intro st host port username password timeoutSec cfg localPort handle parseOpts
      withOptions listDatabaseNames e opts client hparse hwith hlist
    simp [connect_mongodb, hparse, hwith, hlist]

/-- Witness for the amended C7: a direct redis connect with the 5-second
default whose attempt times out leaves the registry unchanged, and a
tunnel-carrying redis connect whose attempt times out keeps the inserted
tunnel session while the connection slot stays empty. -/
theorem connect_timeout_amended_witness :
    connect_redis ⟨none, none, none, none, none, []⟩ "h" 6379 none none none
      (Except.error "no tunnel") (fun _ _ _ => Except.ok ⟨1⟩)
      (fun _ _ => ConnAttempt.timeout "elapsed") (fun _ => Except.ok ()) =
      (Except.error "Connection timed out", ⟨none, none, none, none, none, []⟩) ∧
    connect_redis ⟨none, none, none, none, none, []⟩ "h2" 6380 none (some 9)
      (some ⟨"b", 22, "u", some "pw", none⟩) (Except.ok (50001, ⟨8⟩))
      (fun _ _ _ => Except.ok ⟨2⟩) (fun _ _ => ConnAttempt.timeout "elapsed")
      (fun _ => Except.ok ()) =
      (Except.error "Connection timed out",
        ⟨none, none, none, none, none, [("redis", ⟨8⟩)]⟩) :=
  ⟨connect_timeout_amended.2.2.1 ⟨none, none, none, none, none, []⟩ "h" 6379 none none
      (Except.error "no tunnel") (fun _ _ _ => Except.ok ⟨1⟩)
      (fun _ _ => ConnAttempt.timeout "elapsed") (fun _ => Except.ok ()) ⟨1⟩ "elapsed"
      rfl rfl,
   connect_timeout_amended.2.2.2.1 ⟨none, none, none, none, none, []⟩ "h2" 6380 none
      (some 9) ⟨"b", 22, "u", some "pw", none⟩ 50001 ⟨8⟩ (fun _ _ _ => Except.ok ⟨2⟩)
      (fun _ _ => ConnAttempt.timeout "elapsed") (fun _ => Except.ok ()) ⟨2⟩ "elapsed"
      rfl rfl⟩

/-- Claim C1 counterexample: `sqlite_get_rows` does not order by the
primary key — for a table whose single-column primary key "id" is
discoverable but whose engine default order is [2, 1], the returned page
is not sorted by the key ascending (no ORDER BY is ever generated by this
adapter). -/
theorem sqlite_get_rows_unsorted_counterexample :
    (TableState.mk (some "id") [2, 1]).pk = some "id" ∧
    ¬ List.Sorted (· ≤ ·) (sqlite_get_rows_order ⟨some "id", [2, 1]⟩ 2 0) := by
  refine ⟨rfl, ?_⟩
  decide

/-- Claim C1 (amended): only `postgres_get_rows` orders rows by a
discovered single-column primary key ascending before paging — its
slices are sorted and two successive slices with advancing offsets are
disjoint and order-consistent (every row of the first strictly precedes
every row of the second) — while `sqlite_get_rows` and `mysql_get_rows`
page the engine's default order unchanged and generate no ORDER BY
clause. -/
theorem get_rows_pk_ordering_amended (t : TableState) (c : String)
    (hpk : t.pk = some c) (hnd : t.defaultOrder.Nodup) (l₁ l₂ o : Nat) :
    List.Sorted (· ≤ ·) (postgres_get_rows_order t l₁ o) ∧
    (∀ a ∈ postgres_get_rows_order t l₁ o,
      ∀ b ∈ postgres_get_rows_order t l₂ (o + l₁), a < b) ∧
    sqlite_get_rows_order t l₁ o = pageRows t.defaultOrder l₁ o ∧
    mysql_get_rows_order t l₁ o = pageRows t.defaultOrder l₁ o ∧
    ¬ List.IsInfix "ORDER BY".data (sqlite_get_rows_query "users" 10 0).data ∧
    ¬ List.IsInfix "ORDER BY".data (mysql_get_rows_query "users" 10 0).data := by
  have hsorted : List.Sorted (· ≤ ·) (List.insertionSort (· ≤ ·) t.defaultOrder) :=
    List.sorted_insertionSort _ _
  have hperm : (List.insertionSort (· ≤ ·) t.defaultOrder).Perm t.defaultOrder :=
    List.perm_insertionSort _ _
  have hnodup : (List.insertionSort (· ≤ ·) t.defaultOrder).Nodup :=
    hperm.nodup_iff.mpr hnd
  have hpg : ∀ lim off : Nat,
      postgres_get_rows_order t lim off =
        pageRows (List.insertionSort (· ≤ ·) t.defaultOrder) lim off := by
    intro lim off
    simp [postgres_get_rows_order, hpk]
  refine ⟨?_, ?_, rfl, rfl, by decide, by decide⟩
  · rw [hpg]
    exact List.Pairwise.sublist ((List.take_sublist _ _).trans (List.drop_sublist _ _)) hsorted
  · intro a ha b hb
    rw [hpg] at ha hb
    have hdd : ((List.insertionSort (· ≤ ·) t.defaultOrder).drop o).drop l₁ =
        (List.insertionSort (· ≤ ·) t.defaultOrder).drop (o + l₁) :=
      List.drop_drop _ _ _
    have hb1 : b ∈ ((List.insertionSort (· ≤ ·) t.defaultOrder).drop o).drop l₁ := by
      rw [hdd]
      exact List.take_subset _ _ hb
    have hsle : (((List.insertionSort (· ≤ ·) t.defaultOrder).drop o).take l₁ ++
        ((List.insertionSort (· ≤ ·) t.defaultOrder).drop o).drop l₁).Pairwise (· ≤ ·) := by
      rw [List.take_append_drop]
      exact List.Pairwise.sublist (List.drop_sublist _ _) hsorted
    have hsne : (((List.insertionSort (· ≤ ·) t.defaultOrder).drop o).take l₁ ++
        ((List.insertionSort (· ≤ ·) t.defaultOrder).drop o).drop l₁).Pairwise (· ≠ ·) := by
      rw [List.take_append_drop]
      exact List.Pairwise.sublist (List.drop_sublist _ _) hnodup
    exact lt_of_le_of_ne ((List.pairwise_append.mp hsle).2.2 a ha b hb1)
      ((List.pairwise_append.mp hsne).2.2 a ha b hb1)

/-- Witness for the amended C1 at a concrete table: the postgres slice is
sorted by the key and the sqlite slice is the unsorted default order. -/
theorem get_rows_pk_ordering_amended_witness :
    List.Sorted (· ≤ ·) (postgres_get_rows_order ⟨some "id", [3, 1, 2]⟩ 2 0) ∧
    sqlite_get_rows_order ⟨some "id", [3, 1, 2]⟩ 2 0 = pageRows [3, 1, 2] 2 0 :=
  ⟨(get_rows_pk_ordering_amended ⟨some "id", [3, 1, 2]⟩ "id" rfl (by decide) 2 2 0).1,
   (get_rows_pk_ordering_amended ⟨some "id", [3, 1, 2]⟩ "id" rfl (by decide) 2 2 0).2.2.1⟩

/-- Claim C2 counterexample: in `sqlite_get_rows` the fallback String
decode uses the panicking getter `row.get`, so marshalling a BLOB whose
single byte 0xFF is not valid UTF-8 aborts the row instead of degrading
to a string or Null. -/
theorem sqlite_marshal_blob_panic_counterexample :
    sqliteMarshalCell (SqliteVal.vBlob [255]) =
      Except.error "panic: invalid UTF-8 in BLOB while decoding String" := by
  decide

/-- Claim C2 (amended): the never-raise degradation holds in
`mysql_get_rows` — a failed integer or float decode degrades to the lossy
UTF-8 string of the raw bytes, then to a string decode, then to Null, and
a failed boolean decode degrades directly to Null — but `sqlite_get_rows`
and the execute_raw query paths use the panicking getter for their
fallback string decode, so a value whose string decode fails (a SQLite
BLOB with invalid UTF-8, or a MySQL cell with no decodable string form)
aborts the row instead of degrading. -/
theorem marshal_degradation_amended :
    (∀ c : MysqlCell, c.isNull = false →
      (c.typeName = "TINYINT" ∨ c.typeName = "SMALLINT" ∨ c.typeName = "INT" ∨
        c.typeName = "BIGINT") →
      c.tryI64 = none →
      mysqlGetRowsMarshalCell c =
        (match c.tryBytes, c.tryString with
         | some bs, _ => JValue.str (utf8Lossy bs)
         | none, some s => JValue.str s
         | none, none => JValue.null)) ∧
    (∀ c : MysqlCell, c.isNull = false →
      (c.typeName = "FLOAT" ∨ c.typeName = "DOUBLE" ∨ c.typeName = "DECIMAL") →
      c.tryF64 = none →
      mysqlGetRowsMarshalCell c =
        (match c.tryBytes, c.tryString with
         | some bs, _ => JValue.str (utf8Lossy bs)
         | none, some s => JValue.str s
         | none, none => JValue.null)) ∧
    (∀ c : MysqlCell, c.isNull = false → c.typeName = "BOOLEAN" → c.tryBool = none →
      mysqlGetRowsMarshalCell c = JValue.null) ∧
    (∀ bs : List Nat, validUtf8 bs = false →
      sqliteMarshalCell (SqliteVal.vBlob bs) =
        Except.error "panic: invalid UTF-8 in BLOB while decoding String") ∧
    (∀ c : MysqlCell, c.isNull = false →
      (c.typeName = "TINYINT" ∨ c.typeName = "SMALLINT" ∨ c.typeName = "INT" ∨
        c.typeName = "BIGINT") →
      c.tryI64 = none → c.tryString = none →
      mysqlExecRawMarshalCell c =
        Except.error "panic: Row::get::<String> decode failed") := by
  refine ⟨?_, ?_, ?_, ?_, ?_⟩
  · intro c hnull htn hi
    rcases htn with h | h | h | h <;>
      cases hbys : c.tryBytes <;> cases hstr : c.tryString <;>
        simp [mysqlGetRowsMarshalCell, hnull, h, hi, hbys, hstr]
  · intro c hnull htn hf
    rcases htn with h | h | h <;>
      cases hbys : c.tryBytes <;> cases hstr : c.tryString <;>
        simp [mysqlGetRowsMarshalCell, hnull, h, hf, hbys, hstr]
  · intro c hnull ht hb
    simp [mysqlGetRowsMarshalCell, hnull, ht, hb]
  · intro bs hv
    simp [sqliteMarshalCell, utf8Strict, hv]
  · intro c hnull htn hi hs
    rcases htn with h | h | h | h <;>
      simp [mysqlExecRawMarshalCell, hnull, h, hi, hs]

/-- Witness for the amended C2: an INT-typed non-null MySQL cell whose
integer decode failed but whose raw bytes are available marshals to the
lossy string of those bytes. -/
theorem marshal_degradation_amended_witness :
    mysqlGetRowsMarshalCell ⟨false, "INT", none, none, none, some [200], none⟩ =
      JValue.str (utf8Lossy [200]) := by
  have h := marshal_degradation_amended.1 ⟨false, "INT", none, none, none, some [200], none⟩
    rfl (Or.inr (Or.inr (Or.inl rfl))) rfl
  simpa using h
